import Mathlib

/-!
Verification of the securitycontrol repository (Go).

Shallow embedding conventions:
* Go float64 is modelled as the rationals: every numeric constant in the
  program is a small decimal literal and the program only adds, subtracts,
  multiplies and compares such values.
* Go time.Time is modelled as Int, an instant on a linear clock; the Go
  call t.IsZero() becomes t = 0 and a.Before(b) becomes a < b.
  Functions that read the wall clock take the current instant now : Int as a
  parameter, and the function that compares against the instant six months
  before now takes that instant as a parameter now6 : Int.
* The Go string-typed enums (ControlStatus, ControlCategory, and so on) are
  kept as String, matching the source, with the named constants as
  definitions.  The Go timestamp-format result id is modelled as the string
  "val-" followed by the decimal rendering of the clock parameter.
* Methods that mutate the receiver are modelled as functions returning the
  updated validator value alongside the method's return value.
-/

namespace control

abbrev ControlCategory := String

abbrev ControlType := String

abbrev ControlStatus := String

def StatusImplemented : ControlStatus := "implemented"

def StatusPartiallyImplemented : ControlStatus := "partially_implemented"

def StatusNotImplemented : ControlStatus := "not_implemented"

def StatusDeprecated : ControlStatus := "deprecated"

/-- Mirrors the Go struct control.SecurityControl (pkg/control/control.go). -/
structure SecurityControl where
  ID : String
  Name : String
  Description : String
  Category : ControlCategory
  Type' : ControlType
  SubCategory : String
  RiskReduction : ℚ
  Implementation : String
  Verification : String
  Maintenance : String
  Owner : String
  Status : ControlStatus
  LastVerified : Int
  NextReview : Int
  Evidence : List String
  References : List String
  deriving Repr, DecidableEq

/-- Mirrors the Go struct control.ControlValidationResult. -/
structure ControlValidationResult where
  ControlID : String
  ControlName : String
  Status : String
  Effectiveness : ℚ
  Confidence : ℚ
  Issues : List String
  Evidence : List String
  Recommendations : List String
  ValidatedAt : Int
  deriving Repr, DecidableEq

/-- Mirrors the Go struct control.ControlValidator: the held controls and the
accumulated list of validation results. -/
structure ControlValidator where
  controls : List SecurityControl
  results : List ControlValidationResult
  deriving Repr, DecidableEq

/-- Mirrors Go control.NewControlValidator. -/
def NewControlValidator : ControlValidator :=
  { controls := [], results := [] }

/-- Mirrors the Go method AddControl: appends, with no uniqueness check. -/
def AddControl (v : ControlValidator) (c : SecurityControl) : ControlValidator :=
  { v with controls := v.controls ++ [c] }

/-- Mirrors the Go method getControlByID: a linear scan returning the first
control whose ID matches. -/
def getControlByID (v : ControlValidator) (id : String) : Option SecurityControl :=
  v.controls.find? (fun c => c.ID == id)

/-- Mirrors the Go method validateControlImplementation: default
effectiveness 0.7, overridden by a pure lookup of the status field. -/
def validateControlImplementation (c : SecurityControl) : ℚ :=
  let effective : ℚ := 0.7
  let effective :=
    if c.Status = StatusImplemented then (0.9 : ℚ)
    else if c.Status = StatusPartiallyImplemented then (0.6 : ℚ)
    else if c.Status = StatusNotImplemented then (0.0 : ℚ)
    else effective
  effective

/-- Mirrors the Go method identifyIssues: three independent checks whose
issue strings are appended in a fixed order (evidence, recency, owner).
The parameter now6 stands for the Go expression
time.Now().AddDate(0, -6, 0). -/
def identifyIssues (now6 : Int) (c : SecurityControl) : List String :=
  let issues : List String := []
  let issues :=
    if c.Evidence.length = 0 then
      issues ++ ["No evidence provided for control implementation"]
    else issues
  let issues :=
    if c.LastVerified = 0 ∨ c.LastVerified < now6 then
      issues ++ ["Control not verified in last 6 months"]
    else issues
  let issues :=
    if c.Owner = "" then
      issues ++ ["Control owner not assigned"]
    else issues
  issues

/-- Mirrors the Go method calculateConfidence: base 0.5, an evidence bonus,
an issue bonus or per-issue penalty, then clamping below at 0 and above
at 1. -/
def calculateConfidence (c : SecurityControl) (issues : List String) : ℚ :=
  let confidence : ℚ := 0.5
  let confidence := if c.Evidence.length > 0 then confidence + 0.2 else confidence
  let confidence :=
    if issues.length = 0 then confidence + 0.3
    else confidence - (issues.length : ℚ) * 0.1
  let confidence := if confidence < 0.0 then (0.0 : ℚ) else confidence
  let confidence := if confidence > 1.0 then (1.0 : ℚ) else confidence
  confidence

/-- Mirrors the Go method generateRecommendations: a loop over the issues
that appends one recommendation per issue, chosen by a string switch with a
generic fallback. -/
def generateRecommendations (c : SecurityControl) (issues : List String) : List String :=
  issues.foldl
    (fun recommendations issue =>
      if issue = "No evidence provided for control implementation" then
        recommendations ++ ["Provide evidence of control implementation"]
      else if issue = "Control not verified in last 6 months" then
        recommendations ++ ["Schedule control verification"]
      else if issue = "Control owner not assigned" then
        recommendations ++ ["Assign control owner"]
      else
        recommendations ++ ["Address: " ++ issue])
    []

/-- Mirrors the private Go helper method validateControl, which builds a
ControlValidationResult for one control; the public ValidateControl inlines
the same construction. -/
def validateControl (now now6 : Int) (c : SecurityControl) : ControlValidationResult :=
  let effective := validateControlImplementation c
  let issues := identifyIssues now6 c
  let confidence := calculateConfidence c issues
  let recommendations := generateRecommendations c issues
  { ControlID := c.ID
    ControlName := c.Name
    Status :=
      if issues.length = 0 ∧ (0.9 : ℚ) ≤ effective then "EFFECTIVE"
      else if (0.7 : ℚ) ≤ effective then "PARTIALLY_EFFECTIVE"
      else "INEFFECTIVE"
    Effectiveness := effective
    Confidence := confidence
    Issues := issues
    Evidence := []
    Recommendations := recommendations
    ValidatedAt := now }

/-- Mirrors the Go method ValidateControl: looks the control up by id; when
it is absent returns nil and leaves the validator untouched; otherwise
computes effectiveness, issues, confidence, recommendations and the status
label, appends the result to the result log and returns it. -/
def ValidateControl (now now6 : Int) (v : ControlValidator) (controlID : String) :
    Option ControlValidationResult × ControlValidator :=
  match getControlByID v controlID with
  | none => (none, v)
  | some c =>
    let effective := validateControlImplementation c
    let issues := identifyIssues now6 c
    let confidence := calculateConfidence c issues
    let recommendations := generateRecommendations c issues
    let result : ControlValidationResult :=
      { ControlID := c.ID
        ControlName := c.Name
        Status :=
          if issues.length = 0 ∧ (0.9 : ℚ) ≤ effective then "EFFECTIVE"
          else if (0.7 : ℚ) ≤ effective then "PARTIALLY_EFFECTIVE"
          else "INEFFECTIVE"
        Effectiveness := effective
        Confidence := confidence
        Issues := issues
        Evidence := []
        Recommendations := recommendations
        ValidatedAt := now }
    (some result, { v with results := v.results ++ [result] })

/-- Mirrors the Go method GetValidationResults. -/
def GetValidationResults (v : ControlValidator) : List ControlValidationResult :=
  v.results

end control

namespace validate

abbrev ValidationMethod := String

def MethodTesting : ValidationMethod := "testing"

def MethodObservation : ValidationMethod := "observation"

/-- Mirrors the Go struct validate.ControlTest (pkg/validate/validate.go). -/
structure ControlTest where
  ID : String
  Name : String
  Description : String
  Method : ValidationMethod
  Steps : List String
  ExpectedResult : String
  ActualResult : String
  Passed : Bool
  Notes : String
  TestedAt : Int
  TestedBy : String
  deriving Repr, DecidableEq

/-- Mirrors the Go struct validate.ControlValidation. -/
structure ControlValidation where
  ControlID : String
  Method : ValidationMethod
  Status : String
  Confidence : ℚ
  Issues : List String
  Evidence : List String
  ValidatedAt : Int
  deriving Repr, DecidableEq

/-- Mirrors the Go struct validate.ValidationResult. -/
structure ValidationResult where
  ID : String
  ControlID : String
  ControlName : String
  TestPassed : Bool
  ValidationResult : String
  Effectiveness : ℚ
  RiskRemaining : ℚ
  Recommendations : List String
  ValidatedAt : Int
  deriving Repr, DecidableEq

/-- Mirrors the Go struct validate.ControlValidator. -/
structure ControlValidator where
  controls : List ControlTest
  validation : List ControlValidation
  results : List ValidationResult
  deriving Repr, DecidableEq

/-- Mirrors Go validate.NewControlValidator. -/
def NewControlValidator : ControlValidator :=
  { controls := [], validation := [], results := [] }

/-- Mirrors the Go method AddControlTest: appends, no dedup. -/
def AddControlTest (v : ControlValidator) (t : ControlTest) : ControlValidator :=
  { v with controls := v.controls ++ [t] }

/-- Mirrors the Go method validateControlTest: passed is hardcoded true and
effectiveness is the constant 0.8; the failure branch of the source is kept
verbatim even though passed is always true at this point. -/
def validateControlTest (now : Int) (t : ControlTest) : ValidationResult :=
  let passed := true
  let effectiveness : ℚ := 0.8
  let result : ValidationResult :=
    { ID := "val-" ++ toString now
      ControlID := t.ID
      ControlName := t.Name
      TestPassed := passed
      ValidationResult := "PASS"
      Effectiveness := effectiveness
      RiskRemaining := 1.0 - effectiveness
      Recommendations := []
      ValidatedAt := now }
  if !passed then
    { result with
        ValidationResult := "FAIL"
        Recommendations := result.Recommendations ++ ["Review and fix control implementation"] }
  else
    result

/-- Mirrors the Go method Validate: builds one result per held test in
insertion order, stores that list as the new results field (the source line
is an assignment v.results = results, an overwrite rather than an append)
and returns it. -/
def Validate (now : Int) (v : ControlValidator) :
    List ValidationResult × ControlValidator :=
  let results := v.controls.map (validateControlTest now)
  (results, { v with results := results })

/-- Mirrors the Go method GetResults. -/
def GetResults (v : ControlValidator) : List ValidationResult :=
  v.results

end validate

/-- Spec-side confidence formula, written from the spec's words for claim C3:
base 0.5, plus 0.2 if the evidence list is non-empty, plus 0.3 if there are
zero issues and minus 0.1 per issue otherwise, clamped into the unit
interval. -/
def specConfidence (c : control.SecurityControl) (issues : List String) : ℚ :=
  max 0 (min 1
    (0.5 + (if c.Evidence ≠ [] then 0.2 else 0) +
      (if issues.length = 0 then 0.3 else -(0.1 * (issues.length : ℚ)))))

/-- Spec-side issue-text-to-recommendation mapping, written from the spec's
words for claim C8, with the generic fallback for unmapped issue text. -/
def specRecommendation (issue : String) : String :=
  if issue = "No evidence provided for control implementation" then
    "Provide evidence of control implementation"
  else if issue = "Control not verified in last 6 months" then
    "Schedule control verification"
  else if issue = "Control owner not assigned" then
    "Assign control owner"
  else "Address: " ++ issue

/-- A fully-specified control record with status implemented, used as a
concrete input for witnesses. -/
def sampleImplemented : control.SecurityControl :=
  { ID := "ctrl-001", Name := "Access Control Policy", Description := "Policy",
    Category := "preventive", Type' := "administrative", SubCategory := "Access Management",
    RiskReduction := 0.3, Implementation := "IAM", Verification := "Review",
    Maintenance := "", Owner := "Security Team", Status := "implemented",
    LastVerified := 100, NextReview := 0,
    Evidence := ["policy-access-control.pdf"], References := ["NIST-800-53-AC-1"] }

/-- A second control record with the same status as sampleImplemented but
different risk reduction, evidence, owner and timestamps. -/
def sampleImplementedVariant : control.SecurityControl :=
  { ID := "ctrl-002", Name := "Multi-Factor Authentication", Description := "MFA",
    Category := "preventive", Type' := "technical", SubCategory := "Authentication",
    RiskReduction := 0.9, Implementation := "MFA", Verification := "Test",
    Maintenance := "", Owner := "", Status := "implemented",
    LastVerified := 0, NextReview := 0,
    Evidence := [], References := [] }

/-- A registry holding a single control with id ctrl-001, used as a concrete
input for witnesses. -/
def singleControlRegistry : control.ControlValidator :=
  { controls := [sampleImplemented], results := [] }

/-- A concrete control test, used for witnesses and the C5 counterexample. -/
def sampleTest : validate.ControlTest :=
  { ID := "test-001", Name := "Access Control Verification", Description := "A",
    Method := "testing", Steps := ["s1"], ExpectedResult := "denied", ActualResult := "denied",
    Passed := true, Notes := "ok", TestedAt := 10, TestedBy := "Security Team" }

/-- A control test agreeing with sampleTest on ID and Name but differing in
every other field, in particular with Passed set to false. -/
def sampleTestVariant : validate.ControlTest :=
  { ID := "test-001", Name := "Access Control Verification", Description := "B",
    Method := "observation", Steps := [], ExpectedResult := "x", ActualResult := "y",
    Passed := false, Notes := "different", TestedAt := 99, TestedBy := "Nobody" }

/-- A test registry holding a single test, used for the C5 counterexample. -/
def singleTestRegistry : validate.ControlValidator :=
  { controls := [sampleTest], validation := [], results := [] }

lemma clamp2_eq (x : ℚ) :
    (if (if x < 0.0 then (0.0 : ℚ) else x) > 1.0 then (1.0 : ℚ)
     else if x < 0.0 then (0.0 : ℚ) else x) = max 0 (min 1 x) := by
  have h0 : (0.0 : ℚ) = 0 := by norm_num
  have h1 : (1.0 : ℚ) = 1 := by norm_num
  rw [h0, h1]
  rcases lt_or_le x 0 with h | h
  · rw [if_pos h]
    rw [if_neg (by norm_num), min_eq_right (by linarith), max_eq_left (by linarith)]
  · rw [if_neg (not_lt.mpr h)]
    rcases lt_or_le 1 x with h2 | h2
    · rw [if_pos h2, min_eq_left (by linarith), max_eq_right (by norm_num)]
    · rw [if_neg (not_lt.mpr h2), min_eq_right h2, max_eq_right h]

lemma generateRecommendations_eq_map (c : control.SecurityControl) (issues : List String) :
    control.generateRecommendations c issues = issues.map specRecommendation := by
  unfold control.generateRecommendations
  suffices h : ∀ (l acc : List String),
      l.foldl (fun recommendations issue =>
        if issue = "No evidence provided for control implementation" then
          recommendations ++ ["Provide evidence of control implementation"]
        else if issue = "Control not verified in last 6 months" then
          recommendations ++ ["Schedule control verification"]
        else if issue = "Control owner not assigned" then
          recommendations ++ ["Assign control owner"]
        else
          recommendations ++ ["Address: " ++ issue]) acc = acc ++ l.map specRecommendation by
    simpa using h issues []
  intro l
  induction l with
  | nil => intro acc; simp
  | cons x xs ih =>
    intro acc
    rw [List.foldl_cons, ih]
    have hx : (if x = "No evidence provided for control implementation" then
          acc ++ ["Provide evidence of control implementation"]
        else if x = "Control not verified in last 6 months" then
          acc ++ ["Schedule control verification"]
        else if x = "Control owner not assigned" then
          acc ++ ["Assign control owner"]
        else
          acc ++ ["Address: " ++ x]) = acc ++ [specRecommendation x] := by
      unfold specRecommendation
      split_ifs <;> rfl
    rw [hx]
    simp

lemma identifyIssues_eq (now6 : Int) (c : control.SecurityControl) :
    control.identifyIssues now6 c =
      (if c.Evidence.length = 0 then ["No evidence provided for control implementation"] else []) ++
      (if c.LastVerified = 0 ∨ c.LastVerified < now6 then ["Control not verified in last 6 months"] else []) ++
      (if c.Owner = "" then ["Control owner not assigned"] else []) := by
  unfold control.identifyIssues
  by_cases h1 : c.Evidence.length = 0 <;>
    by_cases h2 : c.LastVerified = 0 ∨ c.LastVerified < now6 <;>
    by_cases h3 : c.Owner = "" <;>
    simp [h1, h2, h3]

lemma confidence_lower_bound (now6 : Int) (c : control.SecurityControl) :
    (0.2 : ℚ) ≤ control.calculateConfidence c (control.identifyIssues now6 c) := by
  rw [identifyIssues_eq]
  unfold control.calculateConfidence
  by_cases h1 : c.Evidence.length = 0 <;>
    by_cases h2 : c.LastVerified = 0 ∨ c.LastVerified < now6 <;>
    by_cases h3 : c.Owner = "" <;>
    simp only [h1, h2, h3, if_true, if_false, List.append_nil, List.nil_append,
      List.length_nil, List.length_cons, List.length_append, Nat.pos_iff_ne_zero,
      ne_eq, not_false_eq_true, not_true_eq_false, if_neg, if_pos, ite_true, ite_false] <;>
    norm_num

/-- Claim C1: the effectiveness computed for a control is a pure function of
its status field alone, with value 0.9 for implemented, 0.6 for partially
implemented, 0.0 for not implemented, and 0.7 for any other status; controls
with equal status (however their other fields differ) get equal
effectiveness. -/
theorem effectiveness_pure_status_lookup :
    (∀ c : control.SecurityControl,
      control.validateControlImplementation c =
        (if c.Status = "implemented" then (0.9 : ℚ)
         else if c.Status = "partially_implemented" then (0.6 : ℚ)
         else if c.Status = "not_implemented" then (0.0 : ℚ)
         else (0.7 : ℚ))) ∧
    (∀ c₁ c₂ : control.SecurityControl, c₁.Status = c₂.Status →
      control.validateControlImplementation c₁ = control.validateControlImplementation c₂) := by
  constructor
  · intro c
    simp only [control.validateControlImplementation, control.StatusImplemented,
      control.StatusPartiallyImplemented, control.StatusNotImplemented]
  · intro c₁ c₂ h
    simp only [control.validateControlImplementation, h]

/-- Witness for C1: two controls sharing status implemented but differing in
risk reduction, evidence, owner and timestamps get the same effectiveness. -/
theorem effectiveness_pure_status_lookup_witness :
    control.validateControlImplementation sampleImplemented =
      control.validateControlImplementation sampleImplementedVariant :=
  effectiveness_pure_status_lookup.2 sampleImplemented sampleImplementedVariant rfl

/-- Claim C2: the status label of every result produced by ValidateControl is
determined only by the issue count and the effectiveness value: EFFECTIVE
exactly when the issue list is empty and effectiveness is at least 0.9,
otherwise PARTIALLY_EFFECTIVE exactly when effectiveness is at least 0.7,
otherwise INEFFECTIVE. -/
theorem status_label_from_issue_count_and_effectiveness
    (now now6 : Int) (v : control.ControlValidator) (id : String) :
    (control.ValidateControl now now6 v id).1.map (fun r => r.Status) =
      (control.ValidateControl now now6 v id).1.map (fun r =>
        if r.Issues.length = 0 ∧ (0.9 : ℚ) ≤ r.Effectiveness then "EFFECTIVE"
        else if (0.7 : ℚ) ≤ r.Effectiveness then "PARTIALLY_EFFECTIVE"
        else "INEFFECTIVE") := by
  unfold control.ValidateControl
  cases control.getControlByID v id <;> rfl

/-- Claim C3: the computed confidence equals base 0.5, plus 0.2 if the
control's evidence list is non-empty, plus 0.3 if the issue list is empty
and minus 0.1 per issue otherwise, clamped into the unit interval, and in
particular it never leaves the unit interval however many issues there
are. -/
theorem confidence_formula_and_clamped
    (c : control.SecurityControl) (issues : List String) :
    control.calculateConfidence c issues = specConfidence c issues ∧
    0 ≤ control.calculateConfidence c issues ∧
    control.calculateConfidence c issues ≤ 1 := by
  have key : control.calculateConfidence c issues = specConfidence c issues := by
    show (if (if _ < (0.0 : ℚ) then (0.0 : ℚ) else _) > (1.0 : ℚ) then (1.0 : ℚ) else _) = _
    rw [clamp2_eq]
    unfold specConfidence
    by_cases h1 : c.Evidence = [] <;> by_cases h2 : issues.length = 0 <;>
      simp only [h1, h2, List.length_nil, lt_irrefl, if_true, if_false, ne_eq,
        not_true_eq_false, not_false_eq_true, List.length_pos, if_neg, if_pos,
        Nat.lt_irrefl, gt_iff_lt] <;> ring_nf
  exact ⟨key, by rw [key]; exact le_max_left 0 _,
    by rw [key]; exact max_le (by norm_num) (min_le_left 1 _)⟩

/-- Claim C4: Validate produces one ValidationResult per held test in
insertion order, and every produced result has pass true, result label PASS,
effectiveness 0.8, risk-remaining 0.2 and an empty recommendation list, so
the FAIL branch and its recommendation text are never reached. -/
theorem validate_constant_pass_results (now : Int) (v : validate.ControlValidator) :
    (validate.Validate now v).1 = v.controls.map (validate.validateControlTest now) ∧
    (validate.Validate now v).1.map
        (fun r => (r.TestPassed, r.ValidationResult, r.Effectiveness,
          r.RiskRemaining, r.Recommendations)) =
      v.controls.map (fun _ => (true, "PASS", (0.8 : ℚ), (0.2 : ℚ), ([] : List String))) := by
  refine ⟨rfl, ?_⟩
  show (v.controls.map (validate.validateControlTest now)).map _ = _
  rw [List.map_map]
  refine List.map_congr_left ?_
  intro t _
  simp only [Function.comp, validate.validateControlTest]
  norm_num

/-- Counterexample to claim C5 as stated: on a registry holding one test,
calling Validate twice leaves a stored result log of length 1, not the
length 2 the append-only reading requires, because the second call
overwrites the log. -/
theorem validate_twice_overwrites_log_cex :
    ((validate.Validate 0 (validate.Validate 0 singleTestRegistry).2).2.results.length = 1) ∧
    ¬ ((validate.Validate 0 (validate.Validate 0 singleTestRegistry).2).2.results.length = 2) := by
  constructor <;> simp [validate.Validate, singleTestRegistry]

/-- Claim C5 as amended: the control registry's result log is append-only
(every ValidateControl call appends its produced result, if any, after the
existing entries, which are preserved), but the test registry's Validate
replaces the stored log with the results of the current call, so only the
most recent call's results remain stored. -/
theorem control_log_appends_test_log_replaced :
    (∀ (now now6 : Int) (v : control.ControlValidator) (id : String),
      (control.ValidateControl now now6 v id).2.results =
        v.results ++ (control.ValidateControl now now6 v id).1.toList) ∧
    (∀ (now : Int) (v : validate.ControlValidator),
      (validate.Validate now v).2.results = (validate.Validate now v).1) := by
  constructor
  · intro now now6 v id
    unfold control.ValidateControl
    cases control.getControlByID v id
    · simp
    · rfl
  · intro now v
    rfl

/-- Claim C6: ValidateControl on an id held by no control returns an absent
result and leaves the registry unchanged, appending nothing to the result
log; lookup is by first match in insertion order, so with duplicate ids the
result is computed from the first matching control. -/
theorem validateControl_absent_id_and_first_match
    (now now6 : Int) (v : control.ControlValidator) (id : String) :
    (control.ValidateControl now now6 v id =
      match control.getControlByID v id with
      | none => (none, v)
      | some c => (some (control.validateControl now now6 c),
          { v with results := v.results ++ [control.validateControl now now6 c] })) ∧
    control.getControlByID v id = v.controls.find? (fun c => c.ID == id) ∧
    ((∀ c ∈ v.controls, c.ID ≠ id) → control.ValidateControl now now6 v id = (none, v)) := by
  refine ⟨?_, rfl, ?_⟩
  · unfold control.ValidateControl control.validateControl
    cases control.getControlByID v id <;> rfl
  · intro h
    have hn : control.getControlByID v id = none := by
      simp only [control.getControlByID, List.find?_eq_none]
      intro c hc
      simpa using h c hc
    unfold control.ValidateControl
    rw [hn]

/-- Witness for C6: validating the unknown id ctrl-999 on a registry holding
only ctrl-001 returns an absent result and the registry value unchanged. -/
theorem validateControl_absent_id_and_first_match_witness :
    control.ValidateControl 5 0 singleControlRegistry "ctrl-999" =
      (none, singleControlRegistry) :=
  (validateControl_absent_id_and_first_match 5 0 singleControlRegistry "ctrl-999").2.2
    (by decide)

/-- Claim C7: for every ValidationResult produced by the test registry, the
risk-remaining field plus the effectiveness field equals 1. -/
theorem risk_remaining_complements_effectiveness :
    (∀ (now : Int) (t : validate.ControlTest),
      (validate.validateControlTest now t).RiskRemaining +
        (validate.validateControlTest now t).Effectiveness = 1) ∧
    (∀ (now : Int) (v : validate.ControlValidator),
      (validate.Validate now v).1.map (fun r => r.RiskRemaining + r.Effectiveness) =
        (validate.Validate now v).1.map (fun _ => (1 : ℚ))) := by
  constructor
  · intro now t
    simp only [validate.validateControlTest]
    norm_num
  · intro now v
    unfold validate.Validate
    simp only [List.map_map]
    refine List.map_congr_left ?_
    intro t _
    simp only [Function.comp, validate.validateControlTest]
    norm_num

/-- Claim C8: the issue list contains exactly one entry per failed check
among the three checks in fixed order (evidence empty, last-verified unset
or older than six months, owner empty), and the recommendation list is
obtained by mapping the fixed issue-text-to-recommendation table with its
generic fallback over the issues, so it always has the same length as the
issue list. -/
theorem issues_three_checks_and_recommendations_map
    (now6 : Int) (c : control.SecurityControl) :
    (control.identifyIssues now6 c =
      (if c.Evidence.length = 0 then ["No evidence provided for control implementation"] else []) ++
      (if c.LastVerified = 0 ∨ c.LastVerified < now6 then ["Control not verified in last 6 months"] else []) ++
      (if c.Owner = "" then ["Control owner not assigned"] else [])) ∧
    (∀ issues : List String,
      control.generateRecommendations c issues = issues.map specRecommendation ∧
      (control.generateRecommendations c issues).length = issues.length) := by
  refine ⟨identifyIssues_eq now6 c,
    fun issues => ⟨generateRecommendations_eq_map c issues, ?_⟩⟩
  rw [generateRecommendations_eq_map c issues, List.length_map]

/-- Claim C9: identifyIssues can produce at most 3 issues, so every result
actually produced by the public ValidateControl carries confidence at least
0.2 and the clamp-to-zero branch is unreachable through the public
interface. -/
theorem confidence_at_least_one_fifth_via_public_api :
    (∀ (now6 : Int) (c : control.SecurityControl),
      (control.identifyIssues now6 c).length ≤ 3) ∧
    (∀ (now now6 : Int) (v : control.ControlValidator) (id : String),
      (control.ValidateControl now now6 v id).1.elim True
        (fun r => (0.2 : ℚ) ≤ r.Confidence)) := by
  constructor
  · intro now6 c
    rw [identifyIssues_eq]
    by_cases h1 : c.Evidence.length = 0 <;>
      by_cases h2 : c.LastVerified = 0 ∨ c.LastVerified < now6 <;>
      by_cases h3 : c.Owner = "" <;>
      simp [h1, h2, h3]
  · intro now now6 v id
    unfold control.ValidateControl
    cases control.getControlByID v id with
    | none => trivial
    | some c =>
      simp only [Option.elim]
      exact confidence_lower_bound now6 c

/-- Claim C10: per-test validation is insensitive to every field of the test
except ID and Name: two tests agreeing on ID and Name yield identical
ValidationResults at the same clock instant, and every produced result is
labelled PASS even when the test's own Passed flag is false. -/
theorem validateControlTest_depends_only_on_id_and_name :
    (∀ (now : Int) (t₁ t₂ : validate.ControlTest), t₁.ID = t₂.ID → t₁.Name = t₂.Name →
      validate.validateControlTest now t₁ = validate.validateControlTest now t₂) ∧
    (∀ (now : Int) (t : validate.ControlTest),
      (validate.validateControlTest now t).ValidationResult = "PASS") := by
  constructor
  · intro now t₁ t₂ h1 h2
    unfold validate.validateControlTest
    rw [h1, h2]
  · intro now t
    rfl

/-- Witness for C10: a passing test and a failing test that agree on ID and
Name but differ in every other field validate to the same result. -/
theorem validateControlTest_depends_only_on_id_and_name_witness :
    validate.validateControlTest 7 sampleTest = validate.validateControlTest 7 sampleTestVariant :=
  validateControlTest_depends_only_on_id_and_name.1 7 sampleTest sampleTestVariant rfl rfl
